import Mathlib

/-!
Shallow embedding of `decompile_jars.py`: a batch decompiler driver with a
completion oracle (`check_jar_already_decompiled`), a thread-based bounded
task runner (`decompile_with_timeout`, deadline `TIMEOUT_SECONDS = 180`),
and a batch orchestrator (`decompile_jars`) that runs a first pass over all
discovered jar files and a single retry pass over the jars that timed out.

Filesystem queries and the external decompiler process are modelled as
oracles: an `FS` record for directory queries, and an `ExecBehavior` record
describing how one invocation of the external tool behaves (whether the
worker thread raises before recording an outcome, how long the worker
thread runs, the child's exit code and captured standard error, and the
cost of killing the child process).  The orchestrator's mutable counters
become a `Tally` record threaded through folds over the jar list; the
`runnerCalls` field is instrumentation recording every invocation of the
bounded runner, in order, so that scheduling claims can be stated.
-/

namespace JarDecomp

/-- `TIMEOUT_SECONDS = 180` from the source module header. -/
def TIMEOUT_SECONDS : Nat := 180

/-- Filesystem oracle: directory existence and the recursive file listing
under a directory (file names, as produced by `rglob`). Queries only; the
oracle never mutates the filesystem. -/
structure FS where
  dirExists : String → Bool
  filesUnder : String → List String

/-- `jar_output_dir.rglob("*.java")`: the files under `d` whose name matches
the `*.java` pattern. -/
def rglobJava (fs : FS) (d : String) : List String :=
  (fs.filesUnder d).filter (fun f => f.endsWith ".java")

/-- `check_jar_already_decompiled(jar_file, output_dir)` (source lines
12-26): compute `output_dir / jar_file.stem`; if it does not exist return
`False`; otherwise return whether `rglob("*.java")` found at least one
file. -/
def check_jar_already_decompiled (fs : FS) (jarStem : String)
    (output_dir : String) : Bool :=
  let jar_output_dir := output_dir ++ "/" ++ jarStem
  if !(fs.dirExists jar_output_dir) then false
  else decide (0 < (rglobJava fs jar_output_dir).length)

/-- Behaviour of one invocation of the external tool inside the worker
thread of `decompile_with_timeout`:
* `raises`: the thread raises an exception (e.g. `Popen` cannot execute
  `java`) before any of `success`/`error` is set; the thread then dies.
* `threadDuration`: seconds until the worker thread finishes (`none` if it
  never finishes, e.g. the child hangs forever in `communicate`).
* `returncode`/`stderr`: the child's exit status and captured standard
  error, meaningful when the thread runs to completion without raising.
* `killOverhead`: wall-clock cost of `process.kill()`. -/
structure ExecBehavior where
  raises : Bool
  threadDuration : Option Nat
  returncode : Int
  stderr : String
  killOverhead : Nat

/-- Whether the worker thread has finished when `thread.join(TIMEOUT_SECONDS)`
returns, i.e. its duration is within the deadline. -/
def finishesInTime (b : ExecBehavior) : Bool :=
  match b.threadDuration with
  | some d => decide (d ≤ TIMEOUT_SECONDS)
  | none => false

/-- The observable result of `decompile_with_timeout`: the returned triple
`(result['success'], result['error'], result['timeout'])`, plus whether
`process.kill()` was called. -/
structure RunOutput where
  success : Bool
  error : Option String
  timeout : Bool
  killed : Bool
deriving Repr, DecidableEq

/-- `decompile_with_timeout(jar_file, jd_cli_path, output_dir)` (source
lines 29-78).  The result dict starts as `success=False, error=None,
timeout=False`.  The worker thread launches the child (`result['process']`
is set iff `Popen` did not raise), waits for it, and on normal completion
records `success=True` on exit status 0 and `error=stderr` otherwise.  The
main thread `join`s with the deadline; if the thread is still alive it sets
`timeout=True` and kills the process when one was launched. -/
def decompile_with_timeout (b : ExecBehavior) : RunOutput :=
  let threadAlive := !(finishesInTime b)
  let processSet := !b.raises
  if threadAlive then
    { success := false, error := none, timeout := true, killed := processSet }
  else if b.raises then
    { success := false, error := none, timeout := false, killed := false }
  else if b.returncode = 0 then
    { success := true, error := none, timeout := false, killed := false }
  else
    { success := false, error := some b.stderr, timeout := false, killed := false }

/-- Time the caller spends blocked in `thread.join(TIMEOUT_SECONDS)`: the
thread's duration, capped at the deadline (a thread that never finishes
blocks the caller for exactly the deadline). -/
def joinWait (b : ExecBehavior) : Nat :=
  match b.threadDuration with
  | some d => min d TIMEOUT_SECONDS
  | none => TIMEOUT_SECONDS

/-- Total wall-clock time of one `decompile_with_timeout` call as seen by
the caller: the `join` wait plus the kill overhead when the process is
killed.  The abandoned worker thread is a daemon and is never joined
again, so it contributes nothing further. -/
def callerWaitTime (b : ExecBehavior) : Nat :=
  joinWait b + (if (decompile_with_timeout b).killed then b.killOverhead else 0)

/-- The diagnostic text the orchestrator shows for a run: `if error:` in
Python is false both for `None` and for the empty string. -/
def shownDiagnostic (r : RunOutput) : Option String :=
  match r.error with
  | some e => if e = "" then none else some e
  | none => none

/-- The spec's tri-state task outcome. -/
inductive TaskOutcome where
  | Succeeded : TaskOutcome
  | Failed : Option String → TaskOutcome
  | TimedOut : TaskOutcome
deriving Repr, DecidableEq

/-- Classification of a runner result into the spec's tri-state outcome,
following the orchestrator's branch order `if timeout / elif success /
else`. -/
def classify (r : RunOutput) : TaskOutcome :=
  if r.timeout then TaskOutcome.TimedOut
  else if r.success then TaskOutcome.Succeeded
  else TaskOutcome.Failed r.error

/-- One discovered input item: a jar file, identified by its stem (file
name without the `.jar` extension). -/
structure Item where
  stem : String
deriving Repr, DecidableEq

/-- Environment of one batch run: the two precondition queries, the list of
jar files `glob("*.jar")` discovered in `lib_dir`, the filesystem oracle
and output root used by the completion oracle, and the behaviour of the
external tool at the first invocation (`firstBeh`) and at the retry
invocation (`retryBeh`) for each jar. -/
structure BatchEnv where
  libExists : Bool
  toolExists : Bool
  jarFiles : List Item
  fs : FS
  output_dir : String
  firstBeh : Item → ExecBehavior
  retryBeh : Item → ExecBehavior

/-- The orchestrator's counters (`success_count`, `failed_count`,
`retry_count`, `skipped_count`) and the `timeout_jars` list from the
source; `runnerCalls` is instrumentation, not a source variable: the
sequence of jars passed to `decompile_with_timeout`, in call order. -/
structure Tally where
  success_count : Int
  failed_count : Int
  retry_count : Int
  skipped_count : Int
  timeout_jars : List Item
  runnerCalls : List Item
deriving Repr, DecidableEq

/-- All counters zero, both lists empty (source lines 113-117). -/
def initTally : Tally :=
  { success_count := 0, failed_count := 0, retry_count := 0,
    skipped_count := 0, timeout_jars := [], runnerCalls := [] }

/-- The orchestrator's skip test for one jar:
`check_jar_already_decompiled(jar_file, output_path)`. -/
def skipsJar (env : BatchEnv) (jar : Item) : Bool :=
  check_jar_already_decompiled env.fs jar.stem env.output_dir

/-- Whether the first invocation of the runner on `jar` times out. -/
def firstPassTimeout (env : BatchEnv) (jar : Item) : Bool :=
  (decompile_with_timeout (env.firstBeh jar)).timeout

/-- Recording one first-pass runner result (source lines 133-144):
`if timeout:` append to `timeout_jars` and bump `failed_count`;
`elif success:` bump `success_count`; `else:` bump `failed_count`. -/
def recordFirstOutcome (t : Tally) (jar : Item) (r : RunOutput) : Tally :=
  if r.timeout then
    { t with timeout_jars := t.timeout_jars ++ [jar],
             failed_count := t.failed_count + 1 }
  else if r.success then
    { t with success_count := t.success_count + 1 }
  else
    { t with failed_count := t.failed_count + 1 }

/-- One first-pass loop iteration (source lines 119-146): skip when the
completion oracle says the jar is already decompiled, otherwise invoke the
bounded runner (recorded in `runnerCalls`) and record its outcome. -/
def passOneStep (env : BatchEnv) (t : Tally) (jar : Item) : Tally :=
  if skipsJar env jar then
    { t with skipped_count := t.skipped_count + 1 }
  else
    recordFirstOutcome
      { t with runnerCalls := t.runnerCalls ++ [jar] }
      jar (decompile_with_timeout (env.firstBeh jar))

/-- The whole first pass: fold the loop body over the discovered jars. -/
def passOne (env : BatchEnv) : Tally :=
  env.jarFiles.foldl (passOneStep env) initTally

/-- One retry-pass loop iteration (source lines 153-170): invoke the
bounded runner again (recorded in `runnerCalls`); `if timeout:` change no
counter; `elif success:` bump `success_count` and `retry_count` and
decrement `failed_count`; `else:` change no counter. -/
def retryStep (env : BatchEnv) (t : Tally) (jar : Item) : Tally :=
  let r := decompile_with_timeout (env.retryBeh jar)
  let t1 := { t with runnerCalls := t.runnerCalls ++ [jar] }
  if r.timeout then t1
  else if r.success then
    { t1 with success_count := t1.success_count + 1,
              retry_count := t1.retry_count + 1,
              failed_count := t1.failed_count - 1 }
  else t1

/-- The retry pass (source lines 148-170): runs only when `timeout_jars`
is non-empty, iterating over the jars collected in the first pass. -/
def retryPass (env : BatchEnv) (t : Tally) : Tally :=
  if t.timeout_jars.isEmpty then t
  else t.timeout_jars.foldl (retryStep env) t

/-- Result of a whole batch run: the three early-return error cases of
`decompile_jars` (source lines 92-106), or the final tally. -/
inductive BatchResult where
  | errLibMissing : BatchResult
  | errToolMissing : BatchResult
  | errNoJars : BatchResult
  | done : Tally → BatchResult
deriving Repr, DecidableEq

/-- `decompile_jars(jd_cli_path, lib_dir, output_dir)` (source lines
81-176): abort if `lib_dir` does not exist, then if the tool path does not
exist, then if no jar files were found; otherwise run the first pass and
the retry pass and report the final tally. -/
def decompile_jars (env : BatchEnv) : BatchResult :=
  if !env.libExists then BatchResult.errLibMissing
  else if !env.toolExists then BatchResult.errToolMissing
  else if env.jarFiles.isEmpty then BatchResult.errNoJars
  else BatchResult.done (retryPass env (passOne env))

/-- The sum tracked by the batch invariant. -/
def counted (t : Tally) : Int :=
  t.success_count + t.failed_count + t.skipped_count

/-- The runner invocations made by the retry pass on top of `t`: the
suffix of the call trace added after `t`. -/
def retryCallsMade (env : BatchEnv) (t : Tally) : List Item :=
  (retryPass env t).runnerCalls.drop t.runnerCalls.length

/-- The items still pending a retry after the retry pass: timed-out items
the retry pass never passed to the runner. -/
def pendingAfterRetry (env : BatchEnv) (t : Tally) : List Item :=
  t.timeout_jars.filter (fun j => !(retryCallsMade env t).contains j)

/-! ### Concrete sample data -/

/-- A filesystem with no directories and no files. -/
def fsEmpty : FS := { dirExists := fun _ => false, filesUnder := fun _ => [] }

/-- Tool behaviour: finishes quickly with exit status 0. -/
def behSuccess : ExecBehavior :=
  { raises := false, threadDuration := some 5, returncode := 0,
    stderr := "", killOverhead := 1 }

/-- Tool behaviour: the child hangs forever. -/
def behHang : ExecBehavior :=
  { raises := false, threadDuration := none, returncode := 0,
    stderr := "", killOverhead := 2 }

/-- Tool behaviour: finishes quickly with exit status 1 and a diagnostic. -/
def behFail : ExecBehavior :=
  { raises := false, threadDuration := some 5, returncode := 1,
    stderr := "boom", killOverhead := 1 }

/-- Tool behaviour: the worker thread raises before recording anything
(e.g. the `java` runtime cannot be executed). -/
def behRaise : ExecBehavior :=
  { raises := true, threadDuration := some 1, returncode := 0,
    stderr := "", killOverhead := 0 }

/-- Tool behaviour: nonzero exit status with empty standard error. -/
def behFailSilent : ExecBehavior :=
  { raises := false, threadDuration := some 5, returncode := 2,
    stderr := "", killOverhead := 1 }

/-- A two-jar batch: `alpha` succeeds at once, `beta` hangs on the first
attempt and succeeds on retry. -/
def envDemo : BatchEnv :=
  { libExists := true, toolExists := true,
    jarFiles := [{ stem := "alpha" }, { stem := "beta" }],
    fs := fsEmpty, output_dir := "out",
    firstBeh := fun j => if j.stem = "beta" then behHang else behSuccess,
    retryBeh := fun _ => behSuccess }

/-- The tally `envDemo` ends with. -/
def tallyDemo : Tally := retryPass envDemo (passOne envDemo)

/-- A batch whose lib directory is missing. -/
def envNoLib : BatchEnv :=
  { libExists := false, toolExists := true,
    jarFiles := [{ stem := "alpha" }],
    fs := fsEmpty, output_dir := "out",
    firstBeh := fun _ => behSuccess, retryBeh := fun _ => behSuccess }

/-- A batch whose tool path is missing. -/
def envNoTool : BatchEnv :=
  { libExists := true, toolExists := false,
    jarFiles := [{ stem := "alpha" }],
    fs := fsEmpty, output_dir := "out",
    firstBeh := fun _ => behSuccess, retryBeh := fun _ => behSuccess }

/-! ### Lemmas about the bounded task runner -/

theorem decompile_with_timeout_timeout_iff (b : ExecBehavior) :
    (decompile_with_timeout b).timeout = !(finishesInTime b) := by
  cases hft : finishesInTime b <;> cases hr : b.raises <;>
    by_cases hc : b.returncode = 0 <;>
    simp [decompile_with_timeout, hft, hr, hc]

theorem decompile_with_timeout_success_timeout (b : ExecBehavior) :
    (decompile_with_timeout b).success = true →
      (decompile_with_timeout b).timeout = false := by
  cases hft : finishesInTime b <;> cases hr : b.raises <;>
    by_cases hc : b.returncode = 0 <;>
    simp [decompile_with_timeout, hft, hr, hc]

/-- Claim C2: when the worker thread does not raise, the runner returns:
on finishing within the deadline with exit status zero, success; on
finishing with a nonzero exit status, failure carrying the captured
standard error text; and when it has not finished at the deadline, the
child process is killed and the result is a timeout. -/
theorem C2_runner_outcomes (b : ExecBehavior) (h : b.raises = false) :
    (finishesInTime b = true → b.returncode = 0 →
      decompile_with_timeout b =
        { success := true, error := none, timeout := false, killed := false }) ∧
    (finishesInTime b = true → b.returncode ≠ 0 →
      decompile_with_timeout b =
        { success := false, error := some b.stderr, timeout := false,
          killed := false }) ∧
    (finishesInTime b = false →
      decompile_with_timeout b =
        { success := false, error := none, timeout := true, killed := true }) := by
  refine ⟨fun hf hr0 => ?_, fun hf hr0 => ?_, fun hf => ?_⟩
  · simp [decompile_with_timeout, h, hf, hr0]
  · simp [decompile_with_timeout, h, hf, hr0]
  · simp [decompile_with_timeout, h, hf]

theorem C2_runner_outcomes_witness :
    behSuccess.raises = false ∧
    decompile_with_timeout behSuccess =
      { success := true, error := none, timeout := false, killed := false } ∧
    decompile_with_timeout behHang =
      { success := false, error := none, timeout := true, killed := true } :=
  ⟨rfl, (C2_runner_outcomes behSuccess rfl).1 (by decide) (by decide),
    (C2_runner_outcomes behHang rfl).2.2 (by decide)⟩

/-- Claim C3: every call to the bounded runner keeps the caller blocked for
at most `TIMEOUT_SECONDS` (180) plus the process-kill overhead, whatever
the worker thread's duration — including a thread that never finishes. -/
theorem C3_bounded_wait (b : ExecBehavior) :
    callerWaitTime b ≤ TIMEOUT_SECONDS + b.killOverhead := by
  have hjoin : joinWait b ≤ TIMEOUT_SECONDS := by
    unfold joinWait
    cases b.threadDuration with
    | none => exact Nat.le_refl _
    | some d => exact Nat.min_le_right d _
  unfold callerWaitTime
  split_ifs <;> omega

/-- Claim C5: each runner call produces exactly one of the three outcomes:
success excludes timeout and carries no diagnostic, timeout excludes
success and carries no diagnostic, a diagnostic is only present on plain
failure, and the classification is always one of the three constructors. -/
theorem C5_exactly_one_outcome (b : ExecBehavior) :
    ((decompile_with_timeout b).success = true →
      (decompile_with_timeout b).timeout = false ∧
      (decompile_with_timeout b).error = none) ∧
    ((decompile_with_timeout b).timeout = true →
      (decompile_with_timeout b).success = false ∧
      (decompile_with_timeout b).error = none) ∧
    ((decompile_with_timeout b).error ≠ none →
      (decompile_with_timeout b).success = false ∧
      (decompile_with_timeout b).timeout = false) ∧
    (classify (decompile_with_timeout b) = TaskOutcome.Succeeded ∨
      (∃ d, classify (decompile_with_timeout b) = TaskOutcome.Failed d) ∨
      classify (decompile_with_timeout b) = TaskOutcome.TimedOut) := by
  cases hft : finishesInTime b <;> cases hr : b.raises <;>
    by_cases hc : b.returncode = 0 <;>
    simp [decompile_with_timeout, classify, hft, hr, hc]

/-! ### Counting lemmas for the orchestrator -/

theorem counted_recordFirstOutcome (t : Tally) (jar : Item) (r : RunOutput) :
    counted (recordFirstOutcome t jar r) = counted t + 1 := by
  unfold recordFirstOutcome counted
  split_ifs <;> simp <;> ring

theorem counted_passOneStep (env : BatchEnv) (t : Tally) (jar : Item) :
    counted (passOneStep env t jar) = counted t + 1 := by
  unfold passOneStep
  split_ifs
  · unfold counted; simp; ring
  · rw [counted_recordFirstOutcome]; rfl

theorem counted_foldl_passOneStep (env : BatchEnv) (l : List Item) (t : Tally) :
    counted (l.foldl (passOneStep env) t) = counted t + l.length := by
  induction l generalizing t with
  | nil => simp
  | cons j l ih =>
      rw [List.foldl_cons, ih, counted_passOneStep, List.length_cons]
      push_cast
      ring

theorem counted_passOne (env : BatchEnv) :
    counted (passOne env) = (env.jarFiles.length : Int) := by
  unfold passOne
  rw [counted_foldl_passOneStep]
  simp [initTally, counted]

theorem counted_retryStep (env : BatchEnv) (t : Tally) (jar : Item) :
    counted (retryStep env t jar) = counted t := by
  unfold retryStep counted
  by_cases ht : (decompile_with_timeout (env.retryBeh jar)).timeout <;>
    by_cases hs : (decompile_with_timeout (env.retryBeh jar)).success <;>
      simp [ht, hs]

theorem counted_foldl_retryStep (env : BatchEnv) (l : List Item) (t : Tally) :
    counted (l.foldl (retryStep env) t) = counted t := by
  induction l generalizing t with
  | nil => rfl
  | cons j l ih => rw [List.foldl_cons, ih, counted_retryStep]

theorem counted_retryPass (env : BatchEnv) (t : Tally) :
    counted (retryPass env t) = counted t := by
  unfold retryPass
  split_ifs
  · rfl
  · exact counted_foldl_retryStep env t.timeout_jars t

/-- Claim C1: for every batch run that reaches the passes, after the first
pass `succeeded + failed + skipped` equals the number of discovered jars,
each retry step leaves that sum unchanged, and the final reported tally
still satisfies the equation. -/
theorem C1_sum_invariant (env : BatchEnv) (t : Tally)
    (h : decompile_jars env = BatchResult.done t) :
    counted (passOne env) = (env.jarFiles.length : Int) ∧
    (∀ u jar, counted (retryStep env u jar) = counted u) ∧
    counted t = (env.jarFiles.length : Int) := by
  unfold decompile_jars at h
  split_ifs at h
  injection h with h
  subst h
  exact ⟨counted_passOne env, fun u jar => counted_retryStep env u jar,
    by rw [counted_retryPass, counted_passOne]⟩

theorem C1_sum_invariant_witness :
    decompile_jars envDemo = BatchResult.done tallyDemo ∧
    counted tallyDemo = (envDemo.jarFiles.length : Int) :=
  ⟨by decide, (C1_sum_invariant envDemo tallyDemo (by decide)).2.2⟩

/-! ### Trace and pending-retry lemmas -/

theorem timeout_jars_recordFirstOutcome (t : Tally) (jar : Item)
    (r : RunOutput) :
    (recordFirstOutcome t jar r).timeout_jars =
      t.timeout_jars ++ (if r.timeout then [jar] else []) := by
  unfold recordFirstOutcome
  split_ifs <;> simp

theorem runnerCalls_recordFirstOutcome (t : Tally) (jar : Item)
    (r : RunOutput) :
    (recordFirstOutcome t jar r).runnerCalls = t.runnerCalls := by
  unfold recordFirstOutcome
  split_ifs <;> rfl

theorem passOneStep_timeout_jars (env : BatchEnv) (t : Tally) (jar : Item) :
    (passOneStep env t jar).timeout_jars =
      t.timeout_jars ++
        (if !skipsJar env jar && firstPassTimeout env jar then [jar] else []) := by
  unfold passOneStep
  by_cases hs : skipsJar env jar
  · simp [hs]
  · rw [if_neg hs, timeout_jars_recordFirstOutcome]
    by_cases ht : firstPassTimeout env jar
    · unfold firstPassTimeout at ht; simp [hs, ht, firstPassTimeout]
    · unfold firstPassTimeout at ht; simp [hs, ht, firstPassTimeout]

theorem passOneStep_runnerCalls (env : BatchEnv) (t : Tally) (jar : Item) :
    (passOneStep env t jar).runnerCalls =
      t.runnerCalls ++ (if skipsJar env jar then [] else [jar]) := by
  unfold passOneStep
  by_cases hs : skipsJar env jar
  · simp [hs]
  · rw [if_neg hs, runnerCalls_recordFirstOutcome]; simp [hs]

theorem foldl_passOneStep_timeout_jars (env : BatchEnv) (l : List Item)
    (t : Tally) :
    (l.foldl (passOneStep env) t).timeout_jars =
      t.timeout_jars ++
        l.filter (fun j => !skipsJar env j && firstPassTimeout env j) := by
  induction l generalizing t with
  | nil => simp
  | cons j l ih =>
      rw [List.foldl_cons, ih, passOneStep_timeout_jars, List.filter_cons]
      by_cases h : (!skipsJar env j && firstPassTimeout env j) = true
      · simp [h]
      · simp [h]

theorem foldl_passOneStep_runnerCalls (env : BatchEnv) (l : List Item)
    (t : Tally) :
    (l.foldl (passOneStep env) t).runnerCalls =
      t.runnerCalls ++ l.filter (fun j => !skipsJar env j) := by
  induction l generalizing t with
  | nil => simp
  | cons j l ih =>
      rw [List.foldl_cons, ih, passOneStep_runnerCalls, List.filter_cons]
      rcases Bool.eq_false_or_eq_true (skipsJar env j) with h | h <;> simp [h]

theorem passOne_timeout_jars (env : BatchEnv) :
    (passOne env).timeout_jars =
      env.jarFiles.filter
        (fun j => !skipsJar env j && firstPassTimeout env j) := by
  unfold passOne
  rw [foldl_passOneStep_timeout_jars]
  simp [initTally]

theorem passOne_runnerCalls (env : BatchEnv) :
    (passOne env).runnerCalls =
      env.jarFiles.filter (fun j => !skipsJar env j) := by
  unfold passOne
  rw [foldl_passOneStep_runnerCalls]
  simp [initTally]

theorem retryStep_runnerCalls (env : BatchEnv) (t : Tally) (jar : Item) :
    (retryStep env t jar).runnerCalls = t.runnerCalls ++ [jar] := by
  unfold retryStep
  by_cases ht : (decompile_with_timeout (env.retryBeh jar)).timeout <;>
    by_cases hs : (decompile_with_timeout (env.retryBeh jar)).success <;>
      simp [ht, hs]

theorem foldl_retryStep_runnerCalls (env : BatchEnv) (l : List Item)
    (t : Tally) :
    (l.foldl (retryStep env) t).runnerCalls = t.runnerCalls ++ l := by
  induction l generalizing t with
  | nil => simp
  | cons j l ih => rw [List.foldl_cons, ih, retryStep_runnerCalls]; simp

theorem retryPass_runnerCalls (env : BatchEnv) (t : Tally) :
    (retryPass env t).runnerCalls = t.runnerCalls ++ t.timeout_jars := by
  unfold retryPass
  split_ifs with h
  · rw [List.isEmpty_iff] at h; simp [h]
  · exact foldl_retryStep_runnerCalls env t.timeout_jars t

theorem retryCallsMade_eq (env : BatchEnv) (t : Tally) :
    retryCallsMade env t = t.timeout_jars := by
  unfold retryCallsMade
  rw [retryPass_runnerCalls]
  exact List.drop_left _ _

theorem pendingAfterRetry_nil (env : BatchEnv) (t : Tally) :
    pendingAfterRetry env t = [] := by
  unfold pendingAfterRetry
  rw [retryCallsMade_eq]
  refine List.filter_eq_nil_iff.mpr ?_
  intro a ha
  simp [List.elem_iff, ha]

/-- Claim C4: after the first pass, `timeout_jars` holds exactly the
non-skipped jars whose first attempt timed out; the retry pass invokes the
runner once for each of them (in order), so afterwards no jar is still
pending a retry. -/
theorem C4_pending_retry_set (env : BatchEnv) :
    (passOne env).timeout_jars =
      env.jarFiles.filter
        (fun j => !skipsJar env j && firstPassTimeout env j) ∧
    retryCallsMade env (passOne env) = (passOne env).timeout_jars ∧
    pendingAfterRetry env (passOne env) = [] :=
  ⟨passOne_timeout_jars env, retryCallsMade_eq env (passOne env),
    pendingAfterRetry_nil env (passOne env)⟩

/-- Claim C7: over a whole batch (first pass plus retry pass), a
non-duplicated discovered jar is passed to the bounded runner exactly
twice when it was not skipped and its first attempt timed out, exactly
once when it was not skipped and did not time out, and never when it was
skipped — so only timeouts are retried and nothing gets a third attempt. -/
theorem C7_retry_only_on_timeout (env : BatchEnv) (j : Item)
    (hnd : env.jarFiles.Nodup) (hmem : j ∈ env.jarFiles) :
    (retryPass env (passOne env)).runnerCalls.count j =
      (if skipsJar env j then 0
       else if firstPassTimeout env j then 2 else 1) := by
  rw [retryPass_runnerCalls, passOne_runnerCalls, passOne_timeout_jars,
    List.count_append]
  by_cases hs : skipsJar env j
  · rw [List.count_eq_zero.mpr, List.count_eq_zero.mpr]
    · simp [hs]
    · intro hmem2
      rw [List.mem_filter] at hmem2
      simp [hs] at hmem2
    · intro hmem2
      rw [List.mem_filter] at hmem2
      simp [hs] at hmem2
  · have h1 : (env.jarFiles.filter (fun j => !skipsJar env j)).count j = 1 :=
      List.count_eq_one_of_mem (hnd.filter _)
        (List.mem_filter.mpr ⟨hmem, by simp [hs]⟩)
    by_cases ht : firstPassTimeout env j
    · have h2 : (env.jarFiles.filter
          (fun j => !skipsJar env j && firstPassTimeout env j)).count j = 1 :=
        List.count_eq_one_of_mem (hnd.filter _)
          (List.mem_filter.mpr ⟨hmem, by simp [hs, ht]⟩)
      rw [h1, h2]
      simp [hs, ht]
    · have h2 : (env.jarFiles.filter
          (fun j => !skipsJar env j && firstPassTimeout env j)).count j = 0 :=
        List.count_eq_zero.mpr (fun hmem2 => by
          rw [List.mem_filter] at hmem2
          simp [hs, ht] at hmem2)
      rw [h1, h2]
      simp [hs, ht]

theorem C7_retry_only_on_timeout_witness :
    envDemo.jarFiles.Nodup ∧
    ({ stem := "beta" } : Item) ∈ envDemo.jarFiles ∧
    (retryPass envDemo (passOne envDemo)).runnerCalls.count
      { stem := "beta" } = 2 := by
  refine ⟨by decide, by decide, ?_⟩
  rw [C7_retry_only_on_timeout envDemo { stem := "beta" } (by decide) (by decide)]
  decide

/-! ### Completion oracle, retry bookkeeping, preconditions, launch failure -/

/-- Claim C6: the completion oracle answers true exactly when the jar's
output directory `output_root/stem` exists and the recursive search finds
at least one `*.java` file; a directory holding no matching file (empty or
not) yields false.  The oracle is a pure query of the `FS` oracle: it
performs no mutation. -/
theorem C6_completion_oracle (fs : FS) (stem outRoot : String) :
    (check_jar_already_decompiled fs stem outRoot = true ↔
      (fs.dirExists (outRoot ++ "/" ++ stem) = true ∧
        0 < (rglobJava fs (outRoot ++ "/" ++ stem)).length)) ∧
    ((∀ f ∈ fs.filesUnder (outRoot ++ "/" ++ stem),
        f.endsWith ".java" = false) →
      check_jar_already_decompiled fs stem outRoot = false) := by
  constructor
  · unfold check_jar_already_decompiled
    by_cases hd : fs.dirExists (outRoot ++ "/" ++ stem) <;> simp [hd]
  · intro hnone
    unfold check_jar_already_decompiled
    have hfil : rglobJava fs (outRoot ++ "/" ++ stem) = [] := by
      unfold rglobJava
      refine List.filter_eq_nil_iff.mpr ?_
      intro a ha
      simp [hnone a ha]
    by_cases hd : fs.dirExists (outRoot ++ "/" ++ stem) <;> simp [hd, hfil]

theorem C6_completion_oracle_witness :
    (∀ f ∈ fsEmpty.filesUnder ("out" ++ "/" ++ "alpha"),
      f.endsWith ".java" = false) ∧
    check_jar_already_decompiled fsEmpty "alpha" "out" = false :=
  ⟨by intro f hf; simp [fsEmpty] at hf,
    (C6_completion_oracle fsEmpty "alpha" "out").2
      (by intro f hf; simp [fsEmpty] at hf)⟩

/-- Claim C8: a retry step whose runner outcome is success increments
`success_count` and `retry_count` and decrements `failed_count` (and the
jar stays recorded as called); a retry that fails or times out again
changes none of the four counters, leaving the jar counted exactly once in
`failed_count` from the first pass. -/
theorem C8_retry_bookkeeping (env : BatchEnv) (t : Tally) (jar : Item) :
    ((decompile_with_timeout (env.retryBeh jar)).timeout = false →
      (decompile_with_timeout (env.retryBeh jar)).success = true →
      retryStep env t jar =
        { t with success_count := t.success_count + 1,
                 retry_count := t.retry_count + 1,
                 failed_count := t.failed_count - 1,
                 runnerCalls := t.runnerCalls ++ [jar] }) ∧
    (((decompile_with_timeout (env.retryBeh jar)).success = false ∨
        (decompile_with_timeout (env.retryBeh jar)).timeout = true) →
      (retryStep env t jar).success_count = t.success_count ∧
      (retryStep env t jar).failed_count = t.failed_count ∧
      (retryStep env t jar).retry_count = t.retry_count ∧
      (retryStep env t jar).skipped_count = t.skipped_count) := by
  constructor
  · intro ht hs
    unfold retryStep
    simp [ht, hs]
  · intro hcase
    unfold retryStep
    rcases hcase with hs | ht
    · by_cases ht : (decompile_with_timeout (env.retryBeh jar)).timeout <;>
        simp [ht, hs]
    · have hs := (decompile_with_timeout_success_timeout (env.retryBeh jar))
      by_cases hsv : (decompile_with_timeout (env.retryBeh jar)).success
      · exact absurd ht (by simp [hs hsv])
      · simp [ht, hsv]

theorem C8_retry_bookkeeping_witness :
    (decompile_with_timeout (envDemo.retryBeh { stem := "beta" })).timeout
        = false ∧
    (decompile_with_timeout (envDemo.retryBeh { stem := "beta" })).success
        = true ∧
    retryStep envDemo initTally { stem := "beta" } =
      { success_count := 1, failed_count := -1, retry_count := 1,
        skipped_count := 0, timeout_jars := [],
        runnerCalls := [{ stem := "beta" }] } :=
  ⟨by decide, by decide,
    (C8_retry_bookkeeping envDemo initTally { stem := "beta" }).1
      (by decide) (by decide)⟩

/-- Claim C9: a missing lib directory or a missing tool path makes the
batch return the corresponding error immediately; in either case no final
tally is produced (so no item was processed and the runner was never
invoked — the passes only run inside the `done` branch). -/
theorem C9_precondition_abort (env : BatchEnv) :
    (env.libExists = false →
      decompile_jars env = BatchResult.errLibMissing) ∧
    (env.libExists = true → env.toolExists = false →
      decompile_jars env = BatchResult.errToolMissing) ∧
    ((env.libExists = false ∨ env.toolExists = false) →
      ∀ u, decompile_jars env ≠ BatchResult.done u) := by
  refine ⟨fun h => by simp [decompile_jars, h], fun h1 h2 => by
    simp [decompile_jars, h1, h2], ?_⟩
  rintro (h | h) u
  · simp [decompile_jars, h]
  · cases hl : env.libExists
    · simp [decompile_jars, hl]
    · simp [decompile_jars, hl, h]

theorem C9_precondition_abort_witness :
    envNoLib.libExists = false ∧
    decompile_jars envNoLib = BatchResult.errLibMissing ∧
    envNoTool.toolExists = false ∧
    decompile_jars envNoTool = BatchResult.errToolMissing :=
  ⟨rfl, (C9_precondition_abort envNoLib).1 rfl, rfl,
    (C9_precondition_abort envNoTool).2.1 rfl rfl⟩

/-- Claim C10: when the worker thread raises before recording any outcome
and dies within the deadline, the runner returns the untouched defaults
(no success, no diagnostic, no timeout), the caller waits at most the
deadline, and the orchestrator books a plain failure with no shown
diagnostic — exactly the bookkeeping and display a nonzero exit with
empty standard error produces, so the two are indistinguishable. -/
theorem C10_launch_failure (b bExit : ExecBehavior)
    (hb1 : b.raises = true) (hb2 : finishesInTime b = true)
    (he1 : bExit.raises = false) (he2 : finishesInTime bExit = true)
    (he3 : bExit.returncode ≠ 0) (he4 : bExit.stderr = "") :
    decompile_with_timeout b =
      { success := false, error := none, timeout := false, killed := false } ∧
    callerWaitTime b ≤ TIMEOUT_SECONDS ∧
    (∀ t jar, recordFirstOutcome t jar (decompile_with_timeout b) =
      { t with failed_count := t.failed_count + 1 }) ∧
    shownDiagnostic (decompile_with_timeout b) = none ∧
    shownDiagnostic (decompile_with_timeout bExit) =
      shownDiagnostic (decompile_with_timeout b) ∧
    (∀ t jar, recordFirstOutcome t jar (decompile_with_timeout bExit) =
      recordFirstOutcome t jar (decompile_with_timeout b)) := by
  have hrun : decompile_with_timeout b =
      { success := false, error := none, timeout := false, killed := false } := by
    simp [decompile_with_timeout, hb1, hb2]
  have hrunExit : decompile_with_timeout bExit =
      { success := false, error := some "", timeout := false,
        killed := false } := by
    rw [← he4]
    exact (C2_runner_outcomes bExit he1).2.1 he2 he3
  refine ⟨hrun, ?_, ?_, ?_, ?_, ?_⟩
  · have hjoin : joinWait b ≤ TIMEOUT_SECONDS := by
      unfold joinWait
      cases b.threadDuration with
      | none => exact Nat.le_refl _
      | some d => exact Nat.min_le_right d _
    unfold callerWaitTime
    rw [hrun]
    simpa using hjoin
  · intro t jar
    rw [hrun]
    unfold recordFirstOutcome
    simp
  · rw [hrun]; rfl
  · rw [hrun, hrunExit]; rfl
  · intro t jar
    rw [hrun, hrunExit]
    unfold recordFirstOutcome
    simp

theorem C10_launch_failure_witness :
    behRaise.raises = true ∧ finishesInTime behRaise = true ∧
    decompile_with_timeout behRaise =
      { success := false, error := none, timeout := false, killed := false } ∧
    shownDiagnostic (decompile_with_timeout behFailSilent) =
      shownDiagnostic (decompile_with_timeout behRaise) :=
  ⟨rfl, by decide,
    (C10_launch_failure behRaise behFailSilent rfl (by decide) rfl (by decide)
      (by decide) rfl).1,
    (C10_launch_failure behRaise behFailSilent rfl (by decide) rfl (by decide)
      (by decide) rfl).2.2.2.2.1⟩

end JarDecomp
